import Mathlib

set_option autoImplicit false

/-!
Shallow embedding of `matlab_proxy_manager/lib/api.py`: the lifecycle
orchestrator (`_start_matlab_proxy`, `shutdown`) and its launch pipeline
(`_prepare_cmd_and_env_for_matlab_proxy`, `_start_subprocess`,
`_start_subprocess_and_check_for_readiness`).

The repository, helper and descriptor modules (`FileRepository`,
`helpers`, `ServerProcess` methods) are collaborators of the file above;
their Lean definitions are modelled from the specification and carry a
doc comment saying so.  Nondeterministic inputs of a run (minted tokens,
allocated port, spawn success, readiness-probe outcomes, ambient
environment, parent-process liveness) are collected in `StartEnv`.
-/

namespace MatlabProxyManager

/-- The serializable server descriptor (`ServerProcess` in the source).
Field `kind` embeds the Python attribute `type` (a Lean keyword). -/
structure ServerProcess where
  server_url : Option String := none
  mwi_base_url : Option String := none
  headers : List (String × String) := []
  pid : Option String := none
  parent_pid : Option String := none
  id : Option String := none
  kind : Option String := none
  mpm_auth_token : Option String := none
  errors : List String := []
deriving Repr, DecidableEq

/-- Modelled from the spec: the absolute URL joins the server URL with the
base path carried by the descriptor. -/
def ServerProcess.absolute_url (sp : ServerProcess) : String :=
  sp.server_url.getD "" ++ sp.mwi_base_url.getD ""

/-- Modelled from the spec: `ServerProcess.shutdown` sends a termination
signal to `pid`; failures (process already gone) are only logged.  The set
of live backend pids is an explicit list; termination removes the pid
of this descriptor from it. -/
def terminateProcess (live : List String) (sp : ServerProcess) : List String :=
  match live with
  | [] => []
  | p :: rest =>
      if sp.pid = some p then terminateProcess rest sp
      else p :: terminateProcess rest sp

/-- Modelled from the spec: `FileRepository.get` looks the reference record
up by its location `(context)_(callerId)` and returns its descriptor body. -/
def repoGet (records : List (String × ServerProcess)) (name : String) :
    Option ServerProcess :=
  match records with
  | [] => none
  | r :: rest => if r.1 = name then some r.2 else repoGet rest name

/-- Helper: remove the record stored at exactly the given location. -/
def removeRecord (records : List (String × ServerProcess)) (loc : String) :
    List (String × ServerProcess) :=
  match records with
  | [] => []
  | r :: rest =>
      if r.1 = loc then removeRecord rest loc else r :: removeRecord rest loc

/-- Modelled from the spec: `FileRepository.delete` removes the reference
record whose location plus the `.info` file extension equals the given
name (the orchestrator passes `filename + ".info"`). -/
def repoDelete (records : List (String × ServerProcess)) (name : String) :
    List (String × ServerProcess) :=
  match records with
  | [] => []
  | r :: rest =>
      if r.1 ++ ".info" = name then repoDelete rest name
      else r :: repoDelete rest name

/-- Modelled from the spec: `helpers.create_state_file` writes/overwrites
the reference record at location `(context)_(callerId)` with a full copy
of the descriptor. -/
def create_state_file (records : List (String × ServerProcess))
    (sp : ServerProcess) (name : String) : List (String × ServerProcess) :=
  (name, sp) :: removeRecord records name

/-- Modelled from the spec: `ServerProcess.find_existing_server` scans the
persisted records and returns the body of the first one whose embedded
group key equals `key`. -/
def find_existing_server (records : List (String × ServerProcess))
    (key : String) : Option ServerProcess :=
  match records with
  | [] => none
  | r :: rest =>
      if r.2.id = some key then some r.2 else find_existing_server rest key

/-- Helper for the sole-reference test: is there a record at a location
other than `loc` whose embedded group key equals `gk`? -/
def otherRefExists (records : List (String × ServerProcess)) (loc : String)
    (gk : Option String) : Bool :=
  match records with
  | [] => false
  | r :: rest =>
      (decide (r.1 ≠ loc) && decide (r.2.id = gk)) || otherRefExists rest loc gk

/-- Modelled from the spec: `helpers.is_only_reference` is true iff no
other persisted record (different location) embeds the same group key as
the record at `loc`. -/
def is_only_reference (records : List (String × ServerProcess))
    (loc : String) : Bool :=
  match repoGet records loc with
  | none => false
  | some sp => ! otherRefExists records loc sp.id

/-- Helper: drop every record whose location lies under the given context
(its location starts with `context ++ "_"`). -/
def dropRecordsUnderCtx (records : List (String × ServerProcess))
    (ctx : String) : List (String × ServerProcess) :=
  match records with
  | [] => []
  | r :: rest =>
      if r.1.startsWith (ctx ++ "_") then dropRecordsUnderCtx rest ctx
      else r :: dropRecordsUnderCtx rest ctx

/-- Modelled from the spec: `helpers._are_orphaned_servers_deleted`
removes every reference record under the given context whose owning parent
process is no longer alive (liveness is the externally supplied check
`parentAlive` on the context id); best effort, never fatal. -/
def _are_orphaned_servers_deleted (parentAlive : String → Bool)
    (records : List (String × ServerProcess)) (ctx : String) :
    List (String × ServerProcess) :=
  if parentAlive ctx then records else dropRecordsUnderCtx records ctx

/-- Modelled from the spec: `helpers.is_server_ready` polls the url up to
`retries` attempts, waiting `backoff_factor`-scaled delays between
attempts; it returns true on the first success and false on exhaustion.
The per-attempt outcome is the oracle `readyAt`. -/
def is_server_ready (readyAt : Nat → Bool) (url : String) (retries : Nat)
    (backoff_factor : ℚ) : Bool :=
  (List.range retries).any readyAt

/-- The retry bound the orchestrator passes to the readiness probe. -/
def readinessRetries : Nat := 7

/-- The backoff factor the orchestrator passes to the readiness probe,
in seconds. -/
def readinessBackoffNum : ℚ := 1 / 2

/-- Modelled from the spec: the base-path constant
`constants.MWI_BASE_URL_PREFIX` (that module is an external collaborator);
only its role as a fixed string matters here. -/
def MWI_BASE_URL_PREFIX_VALUE : String := "/matlab/"

/-- The backend invocation command built by
`_prepare_cmd_and_env_for_matlab_proxy` (executable name and config come
from external modules and are embedded as fixed strings). -/
def matlab_proxy_cmd : List String :=
  ["matlab-proxy-app", "--config", "default_configuration"]

/-- Dictionary update: entries of `updates` shadow entries of `base`
under first-match lookup. -/
def envUpdate (base updates : List (String × String)) :
    List (String × String) :=
  updates ++ base

/-- First-match lookup in an environment association list. -/
def envGet (e : List (String × String)) (k : String) : Option String :=
  match e with
  | [] => none
  | p :: rest => if p.1 = k then some p.2 else envGet rest k

/-- Modelled from the spec: `convert_mwi_env_vars_to_header_format`
collects the environment entries whose key starts with the tag as
outbound headers. -/
def convert_mwi_env_vars_to_header_format (e : List (String × String))
    (tag : String) : List (String × String) :=
  match e with
  | [] => []
  | p :: rest =>
      if p.1.startsWith tag then
        p :: convert_mwi_env_vars_to_header_format rest tag
      else convert_mwi_env_vars_to_header_format rest tag

/-- Nondeterministic inputs of one start run: the tokens minted by
`secrets`, the allocated port, whether subprocess creation succeeds (and
with which pid or cause), the per-attempt readiness outcomes, the ambient
`os.environ`, and the parent-liveness check used by orphan cleanup. -/
structure StartEnv where
  minted_mpm_token : String
  minted_mwi_token : String
  port : Nat
  spawn_ok : Bool
  spawn_error : String
  new_pid : String
  readyAt : Nat → Bool
  ambient : List (String × String)
  parentAlive : String → Bool

/-- The exceptions raised on the creation path (`exceptions` module). -/
inductive StartFailure where
  | processStart (cause : String)
  | serverReadiness
deriving Repr, DecidableEq

/-- The message carried by a creation-path exception. -/
def StartFailure.message : StartFailure → String
  | .processStart cause => "ProcessStartError: " ++ cause
  | .serverReadiness => "ServerReadinessError"

/-- Observable events of the launch pipeline, used to state ordering
facts about the port allocation and the spawn. -/
inductive LaunchEvent where
  | bindSocket (port : Nat)
  | closeSocket (port : Nat)
  | spawnProcess (pid : String) (penv : List (String × String))
deriving Repr, DecidableEq

/-- Modelled from the spec: `helpers.find_free_port` binds a transient
socket to an ephemeral port and releases the socket immediately before
handing the port number over. -/
def find_free_port_events (port : Nat) : List LaunchEvent :=
  [.bindSocket port, .closeSocket port]

/-- Translation of `_prepare_cmd_and_env_for_matlab_proxy`: build the
command, mint a fresh `MWI_AUTH_TOKEN` (`secrets.token_urlsafe(32)`,
given by the run as `minted_mwi_token`), set `MWI_BASE_URL` to the prefix
joined with the server id, on top of a copy of the ambient environment. -/
def _prepare_cmd_and_env_for_matlab_proxy (ambient : List (String × String))
    (minted_mwi_token : String) (server_id : String) :
    List String × List (String × String) :=
  let mwi_base_url := MWI_BASE_URL_PREFIX_VALUE ++ server_id
  let input_env := [("MWI_AUTH_TOKEN", minted_mwi_token),
                    ("MWI_BASE_URL", mwi_base_url)]
  (matlab_proxy_cmd, envUpdate ambient input_env)

/-- Result of `_start_subprocess`: the updated live-pid list, the launch
events, the pid/url outcome (or the `ProcessStartError`), and the
environment handed to the spawned process when one was spawned. -/
structure SubprocessResult where
  live : List String
  events : List LaunchEvent
  outcome : Except StartFailure (String × String)
  spawnedEnv : Option (List (String × String))

/-- Translation of `_start_subprocess` (with
`_initialize_process_based_on_os_type` folded in): allocate a free port,
put `MWI_APP_PORT` into the environment, build the loopback url, spawn
the process; a spawn failure raises `ProcessStartError`. -/
def _start_subprocess (env : StartEnv) (live : List String)
    (cmd : List String) (penv : List (String × String)) : SubprocessResult :=
  let port := env.port
  let penv2 := envUpdate penv [("MWI_APP_PORT", toString port)]
  if env.spawn_ok then
    { live := env.new_pid :: live
      events := find_free_port_events port ++
        [.spawnProcess env.new_pid penv2]
      outcome := .ok (env.new_pid, "http://127.0.0.1:" ++ toString port)
      spawnedEnv := some penv2 }
  else
    { live := live
      events := find_free_port_events port
      outcome := .error (.processStart env.spawn_error)
      spawnedEnv := none }

/-- Result of `_start_subprocess_and_check_for_readiness`. -/
structure CreateResult where
  live : List String
  events : List LaunchEvent
  outcome : Except StartFailure ServerProcess
  spawnedEnv : Option (List (String × String))

/-- Translation of `_start_subprocess_and_check_for_readiness`: prepare
command and environment, spawn, build the descriptor, then probe
readiness with the fixed bounds; on probe exhaustion terminate the
just-spawned process and raise `ServerReadinessError`. -/
def _start_subprocess_and_check_for_readiness (env : StartEnv)
    (live : List String) (server_id ctx key : String)
    (is_shared_matlab : Bool) (mpm_auth_token : String) : CreateResult :=
  let prepared := _prepare_cmd_and_env_for_matlab_proxy env.ambient
    env.minted_mwi_token server_id
  let sub := _start_subprocess env live prepared.1 prepared.2
  match sub.outcome with
  | .error e =>
      { live := sub.live, events := sub.events, outcome := .error e,
        spawnedEnv := sub.spawnedEnv }
  | .ok pu =>
      let penv2 := sub.spawnedEnv.getD []
      let sp : ServerProcess :=
        { server_url := some pu.2
          mwi_base_url := envGet penv2 "MWI_BASE_URL"
          headers := convert_mwi_env_vars_to_header_format penv2 "MWI"
          pid := some pu.1
          parent_pid := some ctx
          id := some key
          kind := some (if is_shared_matlab then "shared" else "isolated")
          mpm_auth_token := some mpm_auth_token
          errors := [] }
      if is_server_ready env.readyAt sp.absolute_url readinessRetries
          readinessBackoffNum then
        { live := sub.live, events := sub.events, outcome := .ok sp,
          spawnedEnv := sub.spawnedEnv }
      else
        { live := terminateProcess sub.live sp, events := sub.events,
          outcome := .error .serverReadiness, spawnedEnv := sub.spawnedEnv }

/-- Keyword arguments of `_start_matlab_proxy`: a field is `none` when
the keyword is absent from the call. -/
structure StartOptions where
  caller_id : Option String := none
  ctx : Option String := none
  is_shared_matlab : Option Bool := none
  mpm_auth_token : Option String := none
deriving Repr, DecidableEq

/-- The required arguments missing from the options, in the order the
source checks them. -/
def missingArgs (opts : StartOptions) : List String :=
  (if opts.caller_id.isNone then ["caller_id"] else []) ++
  (if opts.ctx.isNone then ["ctx"] else []) ++
  (if opts.is_shared_matlab.isNone then ["is_shared_matlab"] else [])

/-- Python `mpm_auth_token or secrets.token_hex(32)`: absent or empty
tokens are replaced by the minted one. -/
def resolveToken (given : Option String) (minted : String) : String :=
  match given with
  | none => minted
  | some t => if t = "" then minted else t

/-- The identity selected for the group key:
`caller_id if not is_shared_matlab else "default"`. -/
def identityOf (is_shared_matlab : Bool) (caller_id : String) : String :=
  if is_shared_matlab then "default" else caller_id

/-- The group key `f"{ctx}_{ident}"`. -/
def groupKeyOf (ctx ident : String) : String := ctx ++ "_" ++ ident

/-- The persisted state acted on by the orchestrator: the reference
records of the data directory of the repository and the set of live backend
pids. -/
structure World where
  records : List (String × ServerProcess)
  live : List String
deriving Repr, DecidableEq

/-- Translation of `_start_matlab_proxy`: validate, clean orphans, look
the group key up, alias or create, persist, return.  A raised
`ValueError` is the `Except.error` case; every other outcome is returned
normally as a descriptor dictionary. -/
def _start_matlab_proxy (env : StartEnv) (w : World) (opts : StartOptions) :
    World × Except String ServerProcess :=
  let missing := missingArgs opts
  if missing ≠ [] then
    (w, .error ("Missing required arguments: " ++
      String.intercalate ", " missing))
  else
    let caller_id := opts.caller_id.getD ""
    let ctx := opts.ctx.getD ""
    let is_shared_matlab := opts.is_shared_matlab.getD true
    if ¬ is_shared_matlab ∧ caller_id = "default" then
      (w, .error "Caller id cannot be default when matlab proxy is not shareable")
    else
      let mpm_auth_token := resolveToken opts.mpm_auth_token env.minted_mpm_token
      let records1 := _are_orphaned_servers_deleted env.parentAlive w.records ctx
      let ident := identityOf is_shared_matlab caller_id
      let key := groupKeyOf ctx ident
      match find_existing_server records1 key with
      | some server_process =>
          ({ records := create_state_file records1 server_process
               (ctx ++ "_" ++ caller_id), live := w.live },
           .ok server_process)
      | none =>
          let cr := _start_subprocess_and_check_for_readiness env w.live
            ident ctx key is_shared_matlab mpm_auth_token
          match cr.outcome with
          | .ok sp =>
              ({ records := create_state_file records1 sp
                   (ctx ++ "_" ++ caller_id), live := cr.live },
               .ok sp)
          | .error e =>
              ({ records := records1, live := cr.live },
               .ok { errors := [e.message] })

/-- Translation of `start_matlab_proxy_for_kernel`. -/
def start_matlab_proxy_for_kernel (env : StartEnv) (w : World)
    (caller_id parent_id : String) (is_shared_matlab : Bool) :
    World × Except String ServerProcess :=
  _start_matlab_proxy env w
    { caller_id := some caller_id, ctx := some parent_id,
      is_shared_matlab := some is_shared_matlab }

/-- Translation of `start_matlab_proxy_for_jsp`. -/
def start_matlab_proxy_for_jsp (env : StartEnv) (w : World)
    (parent_id : String) (is_shared_matlab : Bool) (mpm_auth_token : String) :
    World × Except String ServerProcess :=
  _start_matlab_proxy env w
    { caller_id := some "jsp", ctx := some parent_id,
      is_shared_matlab := some is_shared_matlab,
      mpm_auth_token := some mpm_auth_token }

/-- Translation of `shutdown`: missing arguments, missing reference and
token mismatch (`ValueError`, caught) all return with the world
untouched; on token match, under the global lock, terminate the backend
iff this record is the sole reference, then delete the record. -/
def shutdown (w : World) (parent_pid caller_id mpm_auth_token : String) :
    World :=
  if parent_pid = "" ∨ caller_id = "" ∨ mpm_auth_token = "" then w
  else
    let filename := parent_pid ++ "_" ++ caller_id
    match repoGet w.records filename with
    | none => w
    | some server =>
        if some mpm_auth_token ≠ server.mpm_auth_token then w
        else
          { records := repoDelete w.records (filename ++ ".info")
            live :=
              if is_only_reference w.records filename then
                terminateProcess w.live server
              else w.live }

/-! General lemmas about the repository and process model -/

theorem repoGet_repoDelete_self (records : List (String × ServerProcess))
    (loc : String) :
    repoGet (repoDelete records (loc ++ ".info")) loc = none := by
  induction records with
  | nil => rfl
  | cons r rest ih =>
      by_cases h : r.1 ++ ".info" = loc ++ ".info"
      · simp [repoDelete, h, ih]
      · have hne : r.1 ≠ loc := fun he => h (by rw [he])
        simp [repoDelete, h, repoGet, hne, ih]

theorem mem_terminateProcess (live : List String) (sp : ServerProcess)
    (q : String) :
    q ∈ terminateProcess live sp ↔ q ∈ live ∧ sp.pid ≠ some q := by
  induction live with
  | nil => simp [terminateProcess]
  | cons p rest ih =>
      by_cases h : sp.pid = some p
      · rw [show terminateProcess (p :: rest) sp = terminateProcess rest sp by
          simp [terminateProcess, h]]
        rw [ih]
        constructor
        · rintro ⟨hq, hne⟩
          exact ⟨List.mem_cons_of_mem _ hq, hne⟩
        · rintro ⟨hq, hne⟩
          rcases List.mem_cons.mp hq with rfl | hq2
          · exact absurd h hne
          · exact ⟨hq2, hne⟩
      · rw [show terminateProcess (p :: rest) sp
            = p :: terminateProcess rest sp by simp [terminateProcess, h]]
        rw [List.mem_cons, ih, List.mem_cons]
        constructor
        · rintro (rfl | ⟨hq, hne⟩)
          · exact ⟨Or.inl rfl, fun hc => h hc⟩
          · exact ⟨Or.inr hq, hne⟩
        · rintro ⟨rfl | hq, hne⟩
          · exact Or.inl rfl
          · exact Or.inr ⟨hq, hne⟩

theorem shutdown_token_match (w : World) (p c t : String)
    (hp : p ≠ "") (hc : c ≠ "") (ht : t ≠ "")
    (server : ServerProcess)
    (hget : repoGet w.records (p ++ "_" ++ c) = some server)
    (htok : server.mpm_auth_token = some t) :
    shutdown w p c t =
      { records := repoDelete w.records (p ++ "_" ++ c ++ ".info")
        live :=
          if is_only_reference w.records (p ++ "_" ++ c) then
            terminateProcess w.live server
          else w.live } := by
  unfold shutdown
  rw [if_neg (by simp [hp, hc, ht])]
  simp only [hget, htok]
  simp

/-! Claims -/

/-- C1: a shutdown call that passes the missing-argument check, finds the
reference record of the caller and matches the stored token terminates the
backend process iff the record of the caller is the sole persisted reference
embedding its group key, and deletes that same reference record
regardless of the sole-reference outcome. -/
theorem shutdown_sole_reference_protocol (w : World) (p c t pid : String)
    (hp : p ≠ "") (hc : c ≠ "") (ht : t ≠ "")
    (server : ServerProcess)
    (hget : repoGet w.records (p ++ "_" ++ c) = some server)
    (htok : server.mpm_auth_token = some t)
    (hpid : server.pid = some pid)
    (hlive : pid ∈ w.live) :
    repoGet (shutdown w p c t).records (p ++ "_" ++ c) = none ∧
    (pid ∈ (shutdown w p c t).live ↔
      is_only_reference w.records (p ++ "_" ++ c) = false) := by
  rw [shutdown_token_match w p c t hp hc ht server hget htok]
  refine ⟨repoGet_repoDelete_self _ _, ?_⟩
  by_cases hsole : is_only_reference w.records (p ++ "_" ++ c) = true
  · simp [hsole, mem_terminateProcess, hpid]
  · have hsole2 : is_only_reference w.records (p ++ "_" ++ c) = false := by
      simpa using hsole
    simp [hsole2, hlive]

/-- Witness for C1: two references to one group key; shutting the first
down leaves the process alive and removes only that record. -/
theorem shutdown_sole_reference_protocol_witness :
    repoGet (shutdown
      { records :=
          [("100_k1", { pid := some "555", id := some "100_default",
                        mpm_auth_token := some "tok" }),
           ("100_k2", { pid := some "555", id := some "100_default",
                        mpm_auth_token := some "tok" })]
        live := ["555"] } "100" "k1" "tok").records ("100" ++ "_" ++ "k1")
      = none ∧
    ("555" ∈ (shutdown
      { records :=
          [("100_k1", { pid := some "555", id := some "100_default",
                        mpm_auth_token := some "tok" }),
           ("100_k2", { pid := some "555", id := some "100_default",
                        mpm_auth_token := some "tok" })]
        live := ["555"] } "100" "k1" "tok").live ↔
      is_only_reference
        [("100_k1", { pid := some "555", id := some "100_default",
                      mpm_auth_token := some "tok" }),
         ("100_k2", { pid := some "555", id := some "100_default",
                      mpm_auth_token := some "tok" })] ("100" ++ "_" ++ "k1")
        = false) :=
  shutdown_sole_reference_protocol _ "100" "k1" "tok" "555"
    (by decide) (by decide) (by decide)
    { pid := some "555", id := some "100_default",
      mpm_auth_token := some "tok" }
    (by decide) (by decide) (by decide) (by decide)

/-- C2: a shutdown whose supplied token differs from the stored one
mutates no state, and a subsequent shutdown with the correct token still
succeeds (the record of the caller is then gone). -/
theorem shutdown_wrong_token_no_mutation (w : World) (p c t wrong : String)
    (hp : p ≠ "") (hc : c ≠ "") (ht : t ≠ "") (hw : wrong ≠ "")
    (server : ServerProcess)
    (hget : repoGet w.records (p ++ "_" ++ c) = some server)
    (htok : server.mpm_auth_token = some t)
    (hne : wrong ≠ t) :
    shutdown w p c wrong = w ∧
    repoGet (shutdown (shutdown w p c wrong) p c t).records (p ++ "_" ++ c)
      = none := by
  have h1 : shutdown w p c wrong = w := by
    unfold shutdown
    rw [if_neg (by simp [hp, hc, hw])]
    simp only [hget, htok]
    simp [hne]
  refine ⟨h1, ?_⟩
  rw [h1, shutdown_token_match w p c t hp hc ht server hget htok]
  exact repoGet_repoDelete_self _ _

/-- Witness for C2: wrong token leaves the world unchanged and the right
token then deletes the record. -/
theorem shutdown_wrong_token_no_mutation_witness :
    shutdown
      { records :=
          [("100_k1", { pid := some "555", id := some "100_default",
                        mpm_auth_token := some "tok" })]
        live := ["555"] } "100" "k1" "bad"
      = { records :=
            [("100_k1", { pid := some "555", id := some "100_default",
                          mpm_auth_token := some "tok" })]
          live := ["555"] } ∧
    repoGet (shutdown (shutdown
      { records :=
          [("100_k1", { pid := some "555", id := some "100_default",
                        mpm_auth_token := some "tok" })]
        live := ["555"] } "100" "k1" "bad") "100" "k1" "tok").records
      ("100" ++ "_" ++ "k1") = none :=
  shutdown_wrong_token_no_mutation _ "100" "k1" "tok" "bad"
    (by decide) (by decide) (by decide) (by decide)
    { pid := some "555", id := some "100_default",
      mpm_auth_token := some "tok" }
    (by decide) (by decide) (by decide)

/-- C9: shutdown is a silent no-op when any of context, caller id or
token is missing, or when no reference record exists for the caller. -/
theorem shutdown_silent_noop (w : World) (p c t : String)
    (h : p = "" ∨ c = "" ∨ t = "" ∨
      repoGet w.records (p ++ "_" ++ c) = none) :
    shutdown w p c t = w := by
  by_cases hargs : p = "" ∨ c = "" ∨ t = ""
  · unfold shutdown
    rw [if_pos hargs]
  · have hget : repoGet w.records (p ++ "_" ++ c) = none := by tauto
    unfold shutdown
    rw [if_neg hargs]
    simp only [hget]

/-- Witness for C9: missing context argument leaves the world unchanged. -/
theorem shutdown_silent_noop_witness :
    shutdown { records := [], live := ["9"] } "" "k1" "tok"
      = { records := [], live := ["9"] } :=
  shutdown_silent_noop _ "" "k1" "tok" (Or.inl rfl)

/-! Lemmas about the start path -/

theorem repoGet_create_state_file_self
    (records : List (String × ServerProcess)) (sp : ServerProcess)
    (name : String) :
    repoGet (create_state_file records sp name) name = some sp := by
  simp [create_state_file, repoGet]

theorem start_valid_no_raise (env : StartEnv) (w : World)
    (opts : StartOptions)
    (h1 : ¬ missingArgs opts ≠ [])
    (h2 : ¬ (¬ (opts.is_shared_matlab.getD true : Bool) ∧
        opts.caller_id.getD "" = "default")) :
    ∃ d, (_start_matlab_proxy env w opts).2 = Except.ok d := by
  simp only [_start_matlab_proxy]
  rw [if_neg h1, if_neg h2]
  split
  · exact ⟨_, rfl⟩
  · split
    · exact ⟨_, rfl⟩
    · exact ⟨_, rfl⟩

/-- C6: a start call with `is_shared_matlab = false` and caller id equal
to the reserved shared marker "default" raises `ValueError`
synchronously. -/
theorem start_default_isolated_rejected (env : StartEnv) (w : World)
    (ctx : String) (tok : Option String) :
    (_start_matlab_proxy env w
      { caller_id := some "default", ctx := some ctx,
        is_shared_matlab := some false, mpm_auth_token := tok }).2
      = Except.error
          "Caller id cannot be default when matlab proxy is not shareable" := by
  rfl

/-- C10: whenever start raises `ValueError`, no side effect has occurred:
the world (records and live processes) is exactly the input world, for
every orphan-cleanup liveness oracle and every run environment. -/
theorem start_validation_precedes_effects (env : StartEnv) (w : World)
    (opts : StartOptions) (msg : String)
    (h : (_start_matlab_proxy env w opts).2 = Except.error msg) :
    (_start_matlab_proxy env w opts).1 = w := by
  by_cases h1 : missingArgs opts ≠ []
  · simp only [_start_matlab_proxy]
    rw [if_pos h1]
  · by_cases h2 : ¬ (opts.is_shared_matlab.getD true : Bool) ∧
        opts.caller_id.getD "" = "default"
    · simp only [_start_matlab_proxy]
      rw [if_neg h1, if_pos h2]
    · obtain ⟨d, hd⟩ := start_valid_no_raise env w opts h1 h2
      rw [hd] at h
      cases h

/-- Witness for C10: a call with `ctx` and `is_shared_matlab` absent
raises and leaves a world (with a stale record and a dead parent) fully
untouched. -/
theorem start_validation_precedes_effects_witness :
    (_start_matlab_proxy
      { minted_mpm_token := "m", minted_mwi_token := "e", port := 4,
        spawn_ok := true, spawn_error := "", new_pid := "7",
        readyAt := fun _ => true, ambient := [],
        parentAlive := fun _ => false }
      { records := [("5_k", { id := some "5_default" })], live := [] }
      { caller_id := some "k" }).1
      = { records := [("5_k", { id := some "5_default" })], live := [] } :=
  start_validation_precedes_effects _ _ _
    "Missing required arguments: ctx, is_shared_matlab" rfl

/-- C4: the identity is "default" when shared and the caller id
otherwise, the group key joins the context with the identity, and when a
descriptor already exists for the group key, start writes a new reference
record at `(context)_(callerId)` and returns the existing descriptor
unchanged, spawning no process. -/
theorem start_alias_existing (env : StartEnv) (w : World)
    (caller ctx : String) (tok : Option String) (sp : ServerProcess)
    (hfound : find_existing_server
        (_are_orphaned_servers_deleted env.parentAlive w.records ctx)
        (groupKeyOf ctx (identityOf true caller)) = some sp) :
    identityOf true caller = "default" ∧
    identityOf false caller = caller ∧
    groupKeyOf ctx (identityOf true caller) = ctx ++ "_" ++ "default" ∧
    (_start_matlab_proxy env w
      { caller_id := some caller, ctx := some ctx,
        is_shared_matlab := some true, mpm_auth_token := tok }).2
      = Except.ok sp ∧
    (_start_matlab_proxy env w
      { caller_id := some caller, ctx := some ctx,
        is_shared_matlab := some true, mpm_auth_token := tok }).1.live
      = w.live ∧
    repoGet (_start_matlab_proxy env w
      { caller_id := some caller, ctx := some ctx,
        is_shared_matlab := some true, mpm_auth_token := tok }).1.records
      (ctx ++ "_" ++ caller) = some sp := by
  refine ⟨rfl, rfl, rfl, ?_, ?_, ?_⟩ <;>
    simp only [_start_matlab_proxy] <;>
    rw [if_neg (by simp [missingArgs]), if_neg (by simp)] <;>
    simp only [Option.getD_some, hfound] <;>
    simp [repoGet_create_state_file_self]

/-- Witness for C4: a second shared caller k2 in context 100 is aliased
onto the record created for k1. -/
theorem start_alias_existing_witness :
    identityOf true "k2" = "default" ∧
    identityOf false "k2" = "k2" ∧
    groupKeyOf "100" (identityOf true "k2") = "100" ++ "_" ++ "default" ∧
    (_start_matlab_proxy
      { minted_mpm_token := "m", minted_mwi_token := "e", port := 4,
        spawn_ok := true, spawn_error := "", new_pid := "7",
        readyAt := fun _ => true, ambient := [],
        parentAlive := fun _ => true }
      { records := [("100_k1",
          { server_url := some "http://127.0.0.1:4", pid := some "9",
            id := some "100_default", mpm_auth_token := some "tok" })]
        live := ["9"] }
      { caller_id := some "k2", ctx := some "100",
        is_shared_matlab := some true, mpm_auth_token := none }).2
      = Except.ok
          { server_url := some "http://127.0.0.1:4", pid := some "9",
            id := some "100_default", mpm_auth_token := some "tok" } ∧
    (_start_matlab_proxy
      { minted_mpm_token := "m", minted_mwi_token := "e", port := 4,
        spawn_ok := true, spawn_error := "", new_pid := "7",
        readyAt := fun _ => true, ambient := [],
        parentAlive := fun _ => true }
      { records := [("100_k1",
          { server_url := some "http://127.0.0.1:4", pid := some "9",
            id := some "100_default", mpm_auth_token := some "tok" })]
        live := ["9"] }
      { caller_id := some "k2", ctx := some "100",
        is_shared_matlab := some true, mpm_auth_token := none }).1.live
      = ["9"] ∧
    repoGet (_start_matlab_proxy
      { minted_mpm_token := "m", minted_mwi_token := "e", port := 4,
        spawn_ok := true, spawn_error := "", new_pid := "7",
        readyAt := fun _ => true, ambient := [],
        parentAlive := fun _ => true }
      { records := [("100_k1",
          { server_url := some "http://127.0.0.1:4", pid := some "9",
            id := some "100_default", mpm_auth_token := some "tok" })]
        live := ["9"] }
      { caller_id := some "k2", ctx := some "100",
        is_shared_matlab := some true, mpm_auth_token := none }).1.records
      ("100" ++ "_" ++ "k2")
      = some { server_url := some "http://127.0.0.1:4", pid := some "9",
               id := some "100_default", mpm_auth_token := some "tok" } :=
  start_alias_existing _ _ "k2" "100" none
    { server_url := some "http://127.0.0.1:4", pid := some "9",
      id := some "100_default", mpm_auth_token := some "tok" }
    (by decide)

theorem create_spawn_fail (env : StartEnv) (live : List String)
    (server_id ctx key : String) (shared : Bool) (mpm : String)
    (h : env.spawn_ok = false) :
    _start_subprocess_and_check_for_readiness env live server_id ctx key
        shared mpm
      = { live := live, events := find_free_port_events env.port,
          outcome := Except.error (.processStart env.spawn_error),
          spawnedEnv := none } := by
  simp [_start_subprocess_and_check_for_readiness, _start_subprocess, h]

theorem is_server_ready_eq_false (readyAt : Nat → Bool) (url : String)
    (retries : Nat) (backoff : ℚ) (h : ∀ i, readyAt i = false) :
    is_server_ready readyAt url retries backoff = false := by
  simp [is_server_ready, List.any_eq_false, h]

theorem create_not_ready (env : StartEnv) (live : List String)
    (server_id ctx key : String) (shared : Bool) (mpm : String)
    (hspawn : env.spawn_ok = true) (hready : ∀ i, env.readyAt i = false) :
    (_start_subprocess_and_check_for_readiness env live server_id ctx key
        shared mpm).outcome = Except.error .serverReadiness ∧
    env.new_pid ∉ (_start_subprocess_and_check_for_readiness env live
        server_id ctx key shared mpm).live := by
  have hnr := is_server_ready_eq_false env.readyAt
  simp only [_start_subprocess_and_check_for_readiness, _start_subprocess,
    hspawn, if_true]
  simp [hnr _ _ _ hready, mem_terminateProcess]

theorem start_create_error_case (env : StartEnv) (w : World)
    (caller ctx : String) (shared : Bool) (tok : Option String)
    (e : StartFailure)
    (hvalid : ¬ (¬ shared ∧ caller = "default"))
    (hmiss : find_existing_server
        (_are_orphaned_servers_deleted env.parentAlive w.records ctx)
        (groupKeyOf ctx (identityOf shared caller)) = none)
    (herr : (_start_subprocess_and_check_for_readiness env w.live
        (identityOf shared caller) ctx
        (groupKeyOf ctx (identityOf shared caller)) shared
        (resolveToken tok env.minted_mpm_token)).outcome = Except.error e) :
    _start_matlab_proxy env w
      { caller_id := some caller, ctx := some ctx,
        is_shared_matlab := some shared, mpm_auth_token := tok }
      = ({ records :=
             _are_orphaned_servers_deleted env.parentAlive w.records ctx
           live := (_start_subprocess_and_check_for_readiness env w.live
             (identityOf shared caller) ctx
             (groupKeyOf ctx (identityOf shared caller)) shared
             (resolveToken tok env.minted_mpm_token)).live },
         Except.ok { errors := [e.message] }) := by
  simp only [_start_matlab_proxy]
  rw [if_neg (by simp [missingArgs]), if_neg (by simpa using hvalid)]
  simp only [Option.getD_some, hmiss, herr]

/-- C3: start never raises except for malformed input (missing required
argument or the default-isolated policy), and every failure on the
creation path is converted into a returned descriptor whose only
populated field is the errors list, never persisted. -/
theorem start_operational_failures_folded (env : StartEnv) (w : World)
    (caller ctx : String) (shared : Bool) (tok : Option String)
    (opts : StartOptions) (msg : String)
    (hvalid : ¬ (¬ shared ∧ caller = "default"))
    (hmiss : find_existing_server
        (_are_orphaned_servers_deleted env.parentAlive w.records ctx)
        (groupKeyOf ctx (identityOf shared caller)) = none)
    (hfail : env.spawn_ok = false ∨ ∀ i, env.readyAt i = false) :
    ((_start_matlab_proxy env w opts).2 = Except.error msg →
      missingArgs opts ≠ [] ∨
      (opts.is_shared_matlab.getD true = false ∧
       opts.caller_id.getD "" = "default")) ∧
    ∃ d : ServerProcess,
      (_start_matlab_proxy env w
        { caller_id := some caller, ctx := some ctx,
          is_shared_matlab := some shared, mpm_auth_token := tok }).2
        = Except.ok d ∧
      d.errors ≠ [] ∧ d.server_url = none ∧ d.mwi_base_url = none ∧
      d.headers = [] ∧ d.pid = none ∧ d.parent_pid = none ∧ d.id = none ∧
      d.kind = none ∧ d.mpm_auth_token = none ∧
      (_start_matlab_proxy env w
        { caller_id := some caller, ctx := some ctx,
          is_shared_matlab := some shared, mpm_auth_token := tok }).1.records
        = _are_orphaned_servers_deleted env.parentAlive w.records ctx := by
  constructor
  · intro h
    by_cases h1 : missingArgs opts ≠ []
    · exact Or.inl h1
    · right
      by_cases h2 : ¬ (opts.is_shared_matlab.getD true : Bool) ∧
          opts.caller_id.getD "" = "default"
      · exact ⟨by simpa using h2.1, h2.2⟩
      · obtain ⟨d, hd⟩ := start_valid_no_raise env w opts h1 h2
        rw [hd] at h
        cases h
  · have hcase : ∃ e : StartFailure,
        (_start_subprocess_and_check_for_readiness env w.live
          (identityOf shared caller) ctx
          (groupKeyOf ctx (identityOf shared caller)) shared
          (resolveToken tok env.minted_mpm_token)).outcome
          = Except.error e := by
      rcases hfail with hsf | hnr
      · exact ⟨_, by rw [create_spawn_fail _ _ _ _ _ _ _ hsf]⟩
      · by_cases hs : env.spawn_ok = true
        · exact ⟨.serverReadiness,
            (create_not_ready env w.live _ ctx _ shared _ hs hnr).1⟩
        · exact ⟨_, by
            rw [create_spawn_fail _ _ _ _ _ _ _ (by simpa using hs)]⟩
    obtain ⟨e, he⟩ := hcase
    rw [start_create_error_case env w caller ctx shared tok e hvalid hmiss he]
    exact ⟨_, rfl, by simp, rfl, rfl, rfl, rfl, rfl, rfl, rfl, rfl, rfl⟩

/-- Witness for C3: a spawn failure in a fresh world is returned as an
error-only descriptor and nothing is persisted; the sole raise case shown
is a missing-argument call. -/
theorem start_operational_failures_folded_witness :
    ((_start_matlab_proxy
      { minted_mpm_token := "m", minted_mwi_token := "e", port := 4,
        spawn_ok := false, spawn_error := "boom", new_pid := "7",
        readyAt := fun _ => true, ambient := [],
        parentAlive := fun _ => true }
      { records := [], live := [] }
      { caller_id := some "k1" }).2
        = Except.error "Missing required arguments: ctx, is_shared_matlab" →
      missingArgs { caller_id := some "k1" } ≠ [] ∨
      (StartOptions.is_shared_matlab { caller_id := some "k1" }
          |>.getD true) = false ∧
        (StartOptions.caller_id { caller_id := some "k1" }
          |>.getD "") = "default") ∧
    ∃ d : ServerProcess,
      (_start_matlab_proxy
        { minted_mpm_token := "m", minted_mwi_token := "e", port := 4,
          spawn_ok := false, spawn_error := "boom", new_pid := "7",
          readyAt := fun _ => true, ambient := [],
          parentAlive := fun _ => true }
        { records := [], live := [] }
        { caller_id := some "k1", ctx := some "100",
          is_shared_matlab := some true, mpm_auth_token := none }).2
        = Except.ok d ∧
      d.errors ≠ [] ∧ d.server_url = none ∧ d.mwi_base_url = none ∧
      d.headers = [] ∧ d.pid = none ∧ d.parent_pid = none ∧ d.id = none ∧
      d.kind = none ∧ d.mpm_auth_token = none ∧
      (_start_matlab_proxy
        { minted_mpm_token := "m", minted_mwi_token := "e", port := 4,
          spawn_ok := false, spawn_error := "boom", new_pid := "7",
          readyAt := fun _ => true, ambient := [],
          parentAlive := fun _ => true }
        { records := [], live := [] }
        { caller_id := some "k1", ctx := some "100",
          is_shared_matlab := some true, mpm_auth_token := none }).1.records
        = _are_orphaned_servers_deleted (fun _ => true) [] "100" :=
  start_operational_failures_folded _ _ "k1" "100" true none
    { caller_id := some "k1" }
    "Missing required arguments: ctx, is_shared_matlab"
    (by decide) (by decide) (Or.inl rfl)

/-- C5: when the readiness probe (invoked with 7 attempts and a 0.5
second base backoff) never reports the server ready, the just-spawned
process is not alive in the returned world, and the returned descriptor
carries a non-empty errors list. -/
theorem start_readiness_failure_cleanup (env : StartEnv) (w : World)
    (caller ctx : String) (shared : Bool) (tok : Option String)
    (hvalid : ¬ (¬ shared ∧ caller = "default"))
    (hmiss : find_existing_server
        (_are_orphaned_servers_deleted env.parentAlive w.records ctx)
        (groupKeyOf ctx (identityOf shared caller)) = none)
    (hspawn : env.spawn_ok = true)
    (hready : ∀ i, env.readyAt i = false) :
    readinessRetries = 7 ∧ readinessBackoffNum = 1 / 2 ∧
    env.new_pid ∉ (_start_matlab_proxy env w
      { caller_id := some caller, ctx := some ctx,
        is_shared_matlab := some shared, mpm_auth_token := tok }).1.live ∧
    ∃ d : ServerProcess,
      (_start_matlab_proxy env w
        { caller_id := some caller, ctx := some ctx,
          is_shared_matlab := some shared, mpm_auth_token := tok }).2
        = Except.ok d ∧ d.errors ≠ [] := by
  obtain ⟨ho, hnl⟩ := create_not_ready env w.live (identityOf shared caller)
    ctx (groupKeyOf ctx (identityOf shared caller)) shared
    (resolveToken tok env.minted_mpm_token) hspawn hready
  rw [start_create_error_case env w caller ctx shared tok .serverReadiness
    hvalid hmiss ho]
  exact ⟨rfl, rfl, hnl, _, rfl, by simp⟩

/-- Witness for C5: a never-ready probe yields an error descriptor and
the spawned pid "7" is not among the live processes afterwards. -/
theorem start_readiness_failure_cleanup_witness :
    readinessRetries = 7 ∧ readinessBackoffNum = 1 / 2 ∧
    "7" ∉ (_start_matlab_proxy
      { minted_mpm_token := "m", minted_mwi_token := "e", port := 4,
        spawn_ok := true, spawn_error := "", new_pid := "7",
        readyAt := fun _ => false, ambient := [],
        parentAlive := fun _ => true }
      { records := [], live := [] }
      { caller_id := some "k1", ctx := some "100",
        is_shared_matlab := some true, mpm_auth_token := none }).1.live ∧
    ∃ d : ServerProcess,
      (_start_matlab_proxy
        { minted_mpm_token := "m", minted_mwi_token := "e", port := 4,
          spawn_ok := true, spawn_error := "", new_pid := "7",
          readyAt := fun _ => false, ambient := [],
          parentAlive := fun _ => true }
        { records := [], live := [] }
        { caller_id := some "k1", ctx := some "100",
          is_shared_matlab := some true, mpm_auth_token := none }).2
        = Except.ok d ∧ d.errors ≠ [] :=
  start_readiness_failure_cleanup _ _ "k1" "100" true none
    (by decide) (by decide) rfl (fun _ => rfl)

/-- Counterexample for C7: the launch step is called with manager token
"mpmtok", yet the environment handed to the spawned process carries the
freshly minted "envtok" as `MWI_AUTH_TOKEN` and no entry at all holds
"mpmtok". -/
theorem launch_env_token_counterexample :
    ((_start_subprocess_and_check_for_readiness
        { minted_mpm_token := "m", minted_mwi_token := "envtok", port := 4,
          spawn_ok := true, spawn_error := "", new_pid := "7",
          readyAt := fun _ => true, ambient := [],
          parentAlive := fun _ => true }
        [] "default" "100" "100_default" true "mpmtok").spawnedEnv
      = some [("MWI_APP_PORT", "4"), ("MWI_AUTH_TOKEN", "envtok"),
              ("MWI_BASE_URL", "/matlab/default")]) ∧
    envGet [("MWI_APP_PORT", "4"), ("MWI_AUTH_TOKEN", "envtok"),
            ("MWI_BASE_URL", "/matlab/default")] "MWI_AUTH_TOKEN"
      ≠ some "mpmtok" ∧
    ([("MWI_APP_PORT", "4"), ("MWI_AUTH_TOKEN", "envtok"),
      ("MWI_BASE_URL", "/matlab/default")].all
        fun kv => kv.2 != "mpmtok") = true := by
  refine ⟨rfl, by decide, by decide⟩

/-- C7 (amended): the environment handed to the spawned process contains
a fresh `MWI_AUTH_TOKEN` minted inside the launch step (not the manager
auth token passed as argument), a base path equal to
`MWI_BASE_URL_PREFIX` concatenated with the identity, and the chosen
ephemeral port. -/
theorem launch_env_contents (env : StartEnv) (live : List String)
    (server_id ctx key : String) (shared : Bool) (mpm : String)
    (hspawn : env.spawn_ok = true) :
    ∃ e, (_start_subprocess_and_check_for_readiness env live server_id ctx
        key shared mpm).spawnedEnv = some e ∧
      envGet e "MWI_AUTH_TOKEN" = some env.minted_mwi_token ∧
      envGet e "MWI_BASE_URL"
        = some (MWI_BASE_URL_PREFIX_VALUE ++ server_id) ∧
      envGet e "MWI_APP_PORT" = some (toString env.port) := by
  have hse : (_start_subprocess_and_check_for_readiness env live server_id
      ctx key shared mpm).spawnedEnv
      = some (envUpdate
          (envUpdate env.ambient
            [("MWI_AUTH_TOKEN", env.minted_mwi_token),
             ("MWI_BASE_URL", MWI_BASE_URL_PREFIX_VALUE ++ server_id)])
          [("MWI_APP_PORT", toString env.port)]) := by
    simp only [_start_subprocess_and_check_for_readiness, _start_subprocess,
      _prepare_cmd_and_env_for_matlab_proxy, hspawn, if_true]
    split <;> split <;> rfl
  refine ⟨_, hse, ?_, ?_, ?_⟩ <;> simp [envGet, envUpdate]

/-- Witness for C7 (amended) at a concrete successful spawn. -/
theorem launch_env_contents_witness :
    ∃ e, (_start_subprocess_and_check_for_readiness
        { minted_mpm_token := "m", minted_mwi_token := "envtok", port := 4,
          spawn_ok := true, spawn_error := "", new_pid := "7",
          readyAt := fun _ => true, ambient := [("HOME", "h")],
          parentAlive := fun _ => true }
        ["9"] "default" "100" "100_default" true "mpmtok").spawnedEnv
        = some e ∧
      envGet e "MWI_AUTH_TOKEN" = some "envtok" ∧
      envGet e "MWI_BASE_URL" = some (MWI_BASE_URL_PREFIX_VALUE ++ "default") ∧
      envGet e "MWI_APP_PORT" = some (toString 4) :=
  launch_env_contents _ ["9"] "default" "100" "100_default" true "mpmtok" rfl

/-- C8: in the launch pipeline the transient socket bound for port
allocation is closed before the backend process is spawned: the event
trace is bind, close, spawn, and the close event strictly precedes the
spawn event. -/
theorem socket_released_before_spawn (env : StartEnv) (live : List String)
    (cmd : List String) (penv : List (String × String))
    (hspawn : env.spawn_ok = true) :
    (_start_subprocess env live cmd penv).events
      = [LaunchEvent.bindSocket env.port, LaunchEvent.closeSocket env.port,
         LaunchEvent.spawnProcess env.new_pid
           (envUpdate penv [("MWI_APP_PORT", toString env.port)])] ∧
    List.indexOf (LaunchEvent.closeSocket env.port)
        (_start_subprocess env live cmd penv).events
      < List.indexOf
          (LaunchEvent.spawnProcess env.new_pid
            (envUpdate penv [("MWI_APP_PORT", toString env.port)]))
          (_start_subprocess env live cmd penv).events := by
  have hev : (_start_subprocess env live cmd penv).events
      = [LaunchEvent.bindSocket env.port, LaunchEvent.closeSocket env.port,
         LaunchEvent.spawnProcess env.new_pid
           (envUpdate penv [("MWI_APP_PORT", toString env.port)])] := by
    simp [_start_subprocess, hspawn, find_free_port_events]
  refine ⟨hev, ?_⟩
  rw [hev]
  simp [List.indexOf_cons]

/-- Witness for C8 at a concrete successful spawn. -/
theorem socket_released_before_spawn_witness :
    (_start_subprocess
      { minted_mpm_token := "m", minted_mwi_token := "e", port := 4,
        spawn_ok := true, spawn_error := "", new_pid := "7",
        readyAt := fun _ => true, ambient := [],
        parentAlive := fun _ => true }
      [] ["matlab-proxy-app"] []).events
      = [LaunchEvent.bindSocket 4, LaunchEvent.closeSocket 4,
         LaunchEvent.spawnProcess "7"
           (envUpdate [] [("MWI_APP_PORT", toString 4)])] ∧
    List.indexOf (LaunchEvent.closeSocket 4)
        (_start_subprocess
          { minted_mpm_token := "m", minted_mwi_token := "e", port := 4,
            spawn_ok := true, spawn_error := "", new_pid := "7",
            readyAt := fun _ => true, ambient := [],
            parentAlive := fun _ => true }
          [] ["matlab-proxy-app"] []).events
      < List.indexOf
          (LaunchEvent.spawnProcess "7"
            (envUpdate [] [("MWI_APP_PORT", toString 4)]))
          (_start_subprocess
            { minted_mpm_token := "m", minted_mwi_token := "e", port := 4,
              spawn_ok := true, spawn_error := "", new_pid := "7",
              readyAt := fun _ => true, ambient := [],
              parentAlive := fun _ => true }
            [] ["matlab-proxy-app"] []).events :=
  socket_released_before_spawn _ [] ["matlab-proxy-app"] [] rfl

end MatlabProxyManager
